import Mathlib

/-!
Verification development for the data-platform repository
(batch-processor/processor.py, analytics-dashboard/dashboard.py).

The pandas DataFrame is embedded as a list of named columns of `Value`
cells; the relevant pandas primitives (`select_dtypes`, `nunique`,
`duplicated`, `min`/`max`/`mean`, `read_csv`, `json_normalize`,
`DataFrame.to_json`) are modelled as executable Lean functions over this
representation, and the two scripts' logic is transcribed on top of them.
-/

set_option autoImplicit false

namespace DataPlatform

/-- A cell value of a pandas column: null (NaN/None), boolean, integer,
float (modelled as a rational), text, or a nested composite value
(a Python list, which is unhashable). -/
inductive Value : Type where
  | null : Value
  | bool (b : Bool) : Value
  | int (n : Int) : Value
  | float (q : ℚ) : Value
  | text (s : String) : Value
  | composite (vs : List Value) : Value

namespace Value

mutual

def beq : Value → Value → Bool
  | .null, .null => true
  | .bool a, .bool b => a == b
  | .int a, .int b => a == b
  | .float a, .float b => a == b
  | .text a, .text b => a == b
  | .composite a, .composite b => beqList a b
  | _, _ => false

def beqList : List Value → List Value → Bool
  | [], [] => true
  | a :: as, b :: bs => beq a b && beqList as bs
  | _, _ => false

end

mutual

theorem eq_of_beq : (a b : Value) → beq a b = true → a = b
  | .null, .null, _ => rfl
  | .bool a, .bool b, h => by
      simpa [beq] using h
  | .int a, .int b, h => by
      simpa [beq] using h
  | .float a, .float b, h => by
      simpa [beq] using h
  | .text a, .text b, h => by
      simpa [beq] using h
  | .composite a, .composite b, h =>
      congrArg Value.composite (eqList_of_beq a b (by simpa [beq] using h))

theorem eqList_of_beq : (as bs : List Value) → beqList as bs = true → as = bs
  | [], [], _ => rfl
  | a :: as, b :: bs, h => by
      have h1 : beq a b = true ∧ beqList as bs = true := by
        simpa [beqList, Bool.and_eq_true] using h
      rw [eq_of_beq a b h1.1, eqList_of_beq as bs h1.2]

end

mutual

theorem beq_refl : (a : Value) → beq a a = true
  | .null => rfl
  | .bool a => by simp [beq]
  | .int a => by simp [beq]
  | .float a => by simp [beq]
  | .text a => by simp [beq]
  | .composite a => by simpa [beq] using beqList_refl a

theorem beqList_refl : (as : List Value) → beqList as as = true
  | [] => rfl
  | a :: as => by simp [beqList, beq_refl a, beqList_refl as]

end

instance : DecidableEq Value := fun a b =>
  if h : beq a b = true then .isTrue (eq_of_beq a b h)
  else .isFalse (fun he => h (he ▸ beq_refl a))

/-- Python hashability: every scalar is hashable, a list is not. -/
def hashable : Value → Bool
  | composite _ => false
  | _ => true

def isNull : Value → Bool
  | null => true
  | _ => false

def isBool : Value → Bool
  | bool _ => true
  | _ => false

def isInt : Value → Bool
  | int _ => true
  | _ => false

def isFloat : Value → Bool
  | float _ => true
  | _ => false

def isText : Value → Bool
  | text _ => true
  | _ => false

/-- The numeric magnitude of a value, when Python arithmetic treats it as
a number (booleans count as 0/1). -/
def numVal : Value → Option ℚ
  | int n => some (n : ℚ)
  | float q => some q
  | bool b => some (if b then 1 else 0)
  | _ => none

end Value

/-- Rendering of a rational as Python renders the number it models
(integers without a fractional part, floats with one). -/
def ratStr (q : ℚ) : String :=
  if q.den = 1 then toString q.num else toString q.num ++ "." ++ toString q.den

mutual

/-- Python `repr` of a cell value, as used inside the `repr` of a list
(`str` of a list calls `repr` on its items). -/
def pyRepr : Value → String
  | .null => "None"
  | .bool b => if b then "True" else "False"
  | .int n => toString n
  | .float q => ratStr q
  | .text s => String.singleton (Char.ofNat 39) ++ s ++ String.singleton (Char.ofNat 39)
  | .composite vs => "[" ++ pyReprList vs ++ "]"

def pyReprList : List Value → String
  | [] => ""
  | [v] => pyRepr v
  | v :: rest => pyRepr v ++ ", " ++ pyReprList rest

end

/-- The string a cell becomes under pandas `astype(str)`: NaN becomes the
string "nan", text stays itself, other values print as in Python. -/
def pyStrCell : Value → String
  | .null => "nan"
  | .text s => s
  | v => pyRepr v

/-- Python `int(x)`: truncates a float toward zero, maps booleans to 0/1,
parses an integer literal out of text, and raises on anything else. -/
def pyInt : Value → Except Unit Int
  | .int n => .ok n
  | .float q => .ok (q.num / (q.den : Int))
  | .bool b => .ok (if b then 1 else 0)
  | .text s => match s.toInt? with
      | some n => .ok n
      | none => .error ()
  | _ => .error ()

/-- A pandas DataFrame: an ordered list of named columns of cell values.
(The pandas invariant that all columns share one length is carried as a
hypothesis where a statement needs it.) -/
structure Dataset : Type where
  cols : List (String × List Value)
  deriving DecidableEq

namespace Dataset

/-- `df.columns` as a list of names. -/
def names (df : Dataset) : List String :=
  df.cols.map Prod.fst

/-- `df[c]`: the first column named `c`, if any. -/
def getCol (df : Dataset) (c : String) : Option (List Value) :=
  (df.cols.find? (fun p => p.1 = c)).map Prod.snd

/-- `df[c] = vs`: replaces the column in place when the name exists,
otherwise appends it as the last column (pandas column assignment). -/
def setCol (df : Dataset) (c : String) (vs : List Value) : Dataset :=
  if c ∈ df.names then
    ⟨df.cols.map (fun p => if p.1 = c then (c, vs) else p)⟩
  else
    ⟨df.cols ++ [(c, vs)]⟩

/-- `len(df)`: the row count, read off the first column. -/
def nRows (df : Dataset) : Nat :=
  match df.cols with
  | [] => 0
  | c :: _ => c.2.length

/-- The rows of the DataFrame, in order, each a list of cells in column
order. -/
def rowsOf (df : Dataset) : List (List Value) :=
  (List.range df.nRows).map (fun i => df.cols.map (fun c => c.2.getD i .null))

/-- True when every cell of the DataFrame is Python-hashable. -/
def allHashable (df : Dataset) : Bool :=
  df.cols.all (fun c => c.2.all Value.hashable)

/-- `df.astype(str)`: every cell replaced by its string form. -/
def strFrame (df : Dataset) : Dataset :=
  ⟨df.cols.map (fun c => (c.1, c.2.map (fun v => Value.text (pyStrCell v))))⟩

end Dataset

/-- pandas column dtypes relevant to these scripts. -/
inductive DType : Type where
  | int64 : DType
  | float64 : DType
  | boolDT : DType
  | objectDT : DType
  deriving DecidableEq

/-- pandas dtype inference for a column of cells: all booleans gives
`bool`, all integers gives `int64`, numerics possibly mixed with floats or
NaN give `float64`, anything else (including an empty column) is `object`. -/
def inferDType (vs : List Value) : DType :=
  if vs ≠ [] ∧ vs.all Value.isBool then .boolDT
  else if vs ≠ [] ∧ vs.all Value.isInt then .int64
  else if vs ≠ [] ∧ vs.all (fun v => v.isInt || v.isFloat || v.isNull) then .float64
  else .objectDT

/-- Membership in `select_dtypes(include="number")`: the numpy number
dtypes, which exclude `bool`. -/
def isNumberDType (d : DType) : Bool :=
  d = .int64 || d = .float64

/-- `pd.api.types.is_numeric_dtype`, which (unlike `select_dtypes
(include="number")`) also accepts the `bool` dtype. -/
def is_numeric_dtype (d : DType) : Bool :=
  d = .int64 || d = .float64 || d = .boolDT

/-- `pd.api.types.is_bool_dtype`. -/
def is_bool_dtype (d : DType) : Bool :=
  d = .boolDT

/-- dashboard.py `is_numeric_safe`: numeric dtype and not boolean dtype. -/
def is_numeric_safe (vs : List Value) : Bool :=
  is_numeric_dtype (inferDType vs) && !is_bool_dtype (inferDType vs)

/-- processor.py: `df.select_dtypes(include="number").columns.tolist()`. -/
def numericCols (df : Dataset) : List String :=
  (df.cols.filter (fun c => isNumberDType (inferDType c.2))).map Prod.fst

/-- processor.py: `df.select_dtypes(exclude="number").columns.tolist()`. -/
def categoricalCols (df : Dataset) : List String :=
  (df.cols.filter (fun c => !isNumberDType (inferDType c.2))).map Prod.fst

/-- processor.py: `df.isnull().sum().to_dict()` — per column, the number
of null cells. -/
def missingValues (df : Dataset) : List (String × Nat) :=
  df.cols.map (fun c => (c.1, (c.2.filter (fun v => v.isNull)).length))

/-- `series.nunique()`: the number of distinct non-null values; raises
`TypeError` when the column holds an unhashable value. -/
def nuniqueE (vs : List Value) : Except Unit Nat :=
  if vs.all Value.hashable then
    .ok ((vs.filter (fun v => !v.isNull)).dedup.length)
  else
    .error ()

/-- The outcome of dashboard.py `safe_nunique`: a count or the "N/A"
sentinel. -/
inductive UniqueResult : Type where
  | count (n : Nat) : UniqueResult
  | na : UniqueResult
  deriving DecidableEq

/-- dashboard.py `safe_nunique`: `series.nunique()`, falling back on
`TypeError` to `series.astype(str).nunique()`, and to "N/A" if that also
fails. -/
def safe_nunique (vs : List Value) : UniqueResult :=
  match nuniqueE vs with
  | .ok n => .count n
  | .error _ =>
    match nuniqueE (vs.map (fun v => Value.text (pyStrCell v))) with
    | .ok n => .count n
    | .error _ => .na

/-- Count of rows marked by `df.duplicated()`: rows equal to an earlier
row. `seen` accumulates the rows already passed. -/
def dupCountAux : List (List Value) → List (List Value) → Nat
  | [], _ => 0
  | r :: rest, seen => (if r ∈ seen then 1 else 0) + dupCountAux rest (r :: seen)

def dupCount (rows : List (List Value)) : Nat :=
  dupCountAux rows []

/-- `df.duplicated().sum()`: the exact duplicate-row count, raising
`TypeError` when any cell is unhashable. -/
def duplicatedSumE (df : Dataset) : Except Unit Nat :=
  if df.allHashable then .ok (dupCount df.rowsOf) else .error ()

/-- The outcome of the dashboard's duplicate-rows panel: an exact count,
an approximate count over `astype(str)`, or unavailable. -/
inductive DupResult : Type where
  | exact (n : Nat) : DupResult
  | approx (n : Nat) : DupResult
  | unavailable : DupResult
  deriving DecidableEq

/-- dashboard.py lines 226–245: `int(df.duplicated().sum())`, falling
back on `TypeError`/`ValueError` to `df.astype(str).duplicated().sum()`
flagged as approximate, and to "not available" if that also fails. -/
def dashboardDupCount (df : Dataset) : DupResult :=
  match duplicatedSumE df with
  | .ok n => .exact n
  | .error _ =>
    match duplicatedSumE df.strFrame with
    | .ok n => .approx n
    | .error _ => .unavailable

/-- The non-null values of a series (pandas aggregations skip NaN). -/
def seriesNonNull (vs : List Value) : List Value :=
  vs.filter (fun v => !v.isNull)

/-- Fold selecting the element of least numeric magnitude (first wins
ties, as Python `min` does). -/
def numMinV (v0 : Value) (rest : List Value) : Value :=
  rest.foldl (fun acc v => if v.numVal.getD 0 < acc.numVal.getD 0 then v else acc) v0

def numMaxV (v0 : Value) (rest : List Value) : Value :=
  rest.foldl (fun acc v => if acc.numVal.getD 0 < v.numVal.getD 0 then v else acc) v0

/-- Fold selecting the lexicographically least text element. -/
def textMinV (v0 : Value) (rest : List Value) : Value :=
  rest.foldl (fun acc v => if pyStrCell v < pyStrCell acc then v else acc) v0

def textMaxV (v0 : Value) (rest : List Value) : Value :=
  rest.foldl (fun acc v => if pyStrCell acc < pyStrCell v then v else acc) v0

/-- `series.min()` (skipna): the least non-null value. Over a column that
is all numeric (booleans included) this is the numeric minimum; over one
that is all text, the lexicographic minimum; an empty or mixed-type
column gives NaN resp. `TypeError`, either of which makes the enclosing
`int(...)` raise — both are modelled as the error outcome. -/
def seriesMin (vs : List Value) : Except Unit Value :=
  match seriesNonNull vs with
  | [] => .error ()
  | v0 :: rest =>
    if (v0 :: rest).all (fun v => v.numVal.isSome) then .ok (numMinV v0 rest)
    else if (v0 :: rest).all Value.isText then .ok (textMinV v0 rest)
    else .error ()

/-- `series.max()` (skipna), symmetric to `seriesMin`. -/
def seriesMax (vs : List Value) : Except Unit Value :=
  match seriesNonNull vs with
  | [] => .error ()
  | v0 :: rest =>
    if (v0 :: rest).all (fun v => v.numVal.isSome) then .ok (numMaxV v0 rest)
    else if (v0 :: rest).all Value.isText then .ok (textMaxV v0 rest)
    else .error ()

/-- `series.mean()` (skipna): sum of the non-null numeric magnitudes over
their count; raises on a column that is not uniformly numeric. -/
def seriesMean (vs : List Value) : Except Unit ℚ :=
  match seriesNonNull vs with
  | [] => .error ()
  | v0 :: rest =>
    if (v0 :: rest).all (fun v => v.numVal.isSome) then
      .ok (((v0 :: rest).map (fun v => v.numVal.getD 0)).sum / ((v0 :: rest).length : ℚ))
    else .error ()

/-- The `identifier_stats` block of the report. -/
structure IdStats : Type where
  min : Int
  max : Int
  mean : ℚ
  unique : Nat
  deriving DecidableEq

/-- processor.py lines 49–55: when a column named `Identifier` exists,
compute `int(min)`, `int(max)`, `float(mean)` and `int(nunique)` over it
(any of which may raise); otherwise the block is absent. -/
def identifierStatsE (df : Dataset) : Except Unit (Option IdStats) :=
  match df.getCol "Identifier" with
  | none => .ok none
  | some vs => do
    let mnv ← seriesMin vs
    let mn ← pyInt mnv
    let mxv ← seriesMax vs
    let mx ← pyInt mxv
    let me ← seriesMean vs
    let u ← nuniqueE vs
    .ok (some ⟨mn, mx, me, u⟩)

/-- The in-memory report dict assembled by processor.py lines 36–59,
fields in insertion order. -/
structure Report : Type where
  total_rows : Nat
  total_columns : Nat
  numeric : List String
  categorical : List String
  identifier_stats : Option IdStats
  missing_values : List (String × Nat)
  duplicate_rows : Nat
  deriving DecidableEq

/-- processor.py lines 36–59: assembly of the report dict from the
unified DataFrame. Any raise inside the identifier or duplicate
computations aborts the run. -/
def buildReport (df : Dataset) : Except Unit Report := do
  let stats ← identifierStatsE df
  let dups ← duplicatedSumE df
  .ok { total_rows := df.nRows
        total_columns := df.cols.length
        numeric := numericCols df
        categorical := categoricalCols df
        identifier_stats := stats
        missing_values := missingValues df
        duplicate_rows := dups }

/-- A JSON document, as produced by `DataFrame.to_json`. -/
inductive Json : Type where
  | num (q : ℚ) : Json
  | str (s : String) : Json
  | arr (elems : List Json) : Json
  | obj (entries : List (String × Json)) : Json

mutual

/-- One step of `pd.json_normalize` record flattening: a nested object
under key `k` contributes its flattened entries with `k.`-prefixed
paths; any other value is a leaf cell. -/
def flattenEntry (k : String) : Json → List (String × Json)
  | .obj kvs => (flattenEntries kvs).map (fun p => (k ++ "." ++ p.1, p.2))
  | v => [(k, v)]

/-- `pd.json_normalize` on a record: entries flattened in order. -/
def flattenEntries : List (String × Json) → List (String × Json)
  | [] => []
  | (k, v) :: rest => flattenEntry k v ++ flattenEntries rest

end

/-- The report dict as a JSON record, entries in the insertion order of
processor.py lines 36–59. -/
def reportDict (r : Report) : List (String × Json) :=
  [("total_rows", Json.num (r.total_rows : ℚ)),
   ("total_columns", Json.num (r.total_columns : ℚ)),
   ("columns", Json.obj
     [("numeric", Json.arr (r.numeric.map Json.str)),
      ("categorical", Json.arr (r.categorical.map Json.str))])] ++
  (match r.identifier_stats with
   | some s =>
     [("identifier_stats", Json.obj
       [("min", Json.num (s.min : ℚ)), ("max", Json.num (s.max : ℚ)),
        ("mean", Json.num s.mean), ("unique", Json.num (s.unique : ℚ))])]
   | none => []) ++
  [("missing_values", Json.obj
     (r.missing_values.map (fun p => (p.1, Json.num (p.2 : ℚ))))),
   ("duplicate_rows", Json.num (r.duplicate_rows : ℚ))]

/-- processor.py line 62: `pd.json_normalize(report).to_json(...)` as a
document. `json_normalize` yields a one-row DataFrame whose columns are
the flattened key paths; `to_json` (default orient "columns") emits each
column as an object keyed by the row index "0". -/
def reportToJson (r : Report) : Json :=
  Json.obj ((flattenEntries (reportDict r)).map
    (fun p => (p.1, Json.obj [("0", p.2)])))

mutual

/-- Deterministic rendering of a JSON document to text, modelling
`DataFrame.to_json` output (whitespace conventions aside). -/
def printJson : Json → String
  | .num q => ratStr q
  | .str s => "\"" ++ s ++ "\""
  | .arr es => "[" ++ printJsonList es ++ "]"
  | .obj kvs => "\x7b" ++ printJsonEntries kvs ++ "\x7d"

def printJsonList : List Json → String
  | [] => ""
  | [v] => printJson v
  | v :: rest => printJson v ++ ", " ++ printJsonList rest

def printJsonEntries : List (String × Json) → String
  | [] => ""
  | [(k, v)] => "\"" ++ k ++ "\": " ++ printJson v
  | (k, v) :: rest => "\"" ++ k ++ "\": " ++ printJson v ++ ", " ++ printJsonEntries rest

end

/-- The serialized report bytes put to object storage. -/
def serializeReport (r : Report) : String :=
  printJson (reportToJson r)

/-- A storage write observable from the batch script (object puts; bucket
creation and object reads carry no report data and are not tracked). -/
inductive Effect : Type where
  | putObject (bucket objectName payload : String) : Effect
  deriving DecidableEq

/-- processor.py line 31: `df["source_file"] = obj.object_name` tags every
row of a loaded frame with its originating object name. -/
def tagFrame (df : Dataset) (name : String) : Dataset :=
  df.setCol "source_file" (List.replicate df.nRows (Value.text name))

/-- Column union in order of first appearance, as `pd.concat` aligns
columns across frames. -/
def unionNames (frames : List Dataset) : List String :=
  frames.foldl (fun acc f => acc ++ (f.names.filter (fun c => c ∉ acc))) []

/-- processor.py line 34: `pd.concat(frames, ignore_index=True)` — outer
union of columns, rows of each frame in sequence, null for a column a
frame lacks. -/
def concatFrames (frames : List Dataset) : Dataset :=
  ⟨(unionNames frames).map (fun c =>
    (c, frames.flatMap (fun f =>
      match f.getCol c with
      | some vs => vs
      | none => List.replicate f.nRows Value.null)))⟩

/-- The unified DataFrame of one batch run: each listed object's loaded
frame tagged with its name, concatenated in listing order (the script
performs no sorting of the listing). -/
def unifiedFrame (listing : List (String × Dataset)) : Dataset :=
  concatFrames (listing.map (fun p => tagFrame p.2 p.1))

/-- processor.py lines 23–69: abort with "No input files found" on an
empty listing; otherwise build the unified frame and the report, and only
when the whole report dict is assembled, put the serialized bytes to
`batch-data/analytics_report.json` as the final step. Each listed object
is paired with the frame `pd.read_csv` yields for its bytes. -/
def runBatch (listing : List (String × Dataset)) : Except String Report × List Effect :=
  if listing.isEmpty then (.error "No input files found", [])
  else
    match buildReport (unifiedFrame listing) with
    | .error _ => (.error "batch run aborted", [])
    | .ok r => (.ok r, [.putObject "batch-data" "analytics_report.json" (serializeReport r)])

/-- Object storage contents: ((bucket, object name), payload bytes). -/
def Store : Type := List ((String × String) × String)

/-- `put_object`: last-writer-wins full replacement of the named object. -/
def putObjectS (s : Store) (bucket objectName payload : String) : Store :=
  ((bucket, objectName), payload) :: s.filter (fun e => e.1 ≠ (bucket, objectName))

/-- `get_object`: the current payload of the named object. -/
def getObjectS (s : Store) (bucket objectName : String) : Option String :=
  (s.find? (fun e => e.1 = (bucket, objectName))).map Prod.snd

/-- The publish step: serialize the report and overwrite
`batch-data/analytics_report.json`. -/
def publish (r : Report) (s : Store) : Store :=
  putObjectS s "batch-data" "analytics_report.json" (serializeReport r)

/-- Lookup of a top-level key in a JSON object. -/
def jsonLookup (j : Json) (k : String) : Option Json :=
  match j with
  | .obj kvs => (kvs.find? (fun p => p.1 = k)).map Prod.snd
  | _ => none

/-- Top-level keys of a JSON object. -/
def jsonKeys : Json → List String
  | .obj kvs => kvs.map Prod.fst
  | _ => []

/-- Top-level values of a JSON object. -/
def jsonTopVals : Json → List Json
  | .obj kvs => kvs.map Prod.snd
  | _ => []

/-- True for a value of the form produced by `to_json` orient "columns"
on a one-row frame: an object with the single index key "0". -/
def isIdxWrapped : Json → Bool
  | .obj [("0", _)] => true
  | _ => false

def isNumJ : Json → Bool
  | .num _ => true
  | _ => false

def isStrArr : Json → Bool
  | .arr es => es.all (fun e => match e with | .str _ => true | _ => false)
  | _ => false

/-- Transcribed from the spec's words: the claimed shape of the
`identifier_stats` section — exactly the keys min, max, mean, unique with
scalar number values. -/
def specIdStatsShape (j : Json) : Bool :=
  match j with
  | .obj kvs =>
    kvs.map Prod.fst = ["min", "max", "mean", "unique"] &&
    kvs.all (fun p => isNumJ p.2)
  | _ => false

/-- Transcribed from the spec's words: the claimed shape of the `columns`
section — exactly the keys numeric and categorical, arrays of strings. -/
def specColumnsShape (j : Json) : Bool :=
  match j with
  | .obj kvs =>
    kvs.map Prod.fst = ["numeric", "categorical"] &&
    kvs.all (fun p => isStrArr p.2)
  | _ => false

/-- Transcribed from the spec's words (report JSON shape, bit-exact
keys): top-level keys exactly total_rows, total_columns, columns,
optional identifier_stats, missing_values, duplicate_rows, with integer
scalars, nested columns/identifier_stats objects, and a
column-name-to-integer missing_values object — values not nested under
any additional index key. -/
def specReportShape (j : Json) : Bool :=
  match j with
  | .obj kvs =>
    (kvs.map Prod.fst).contains "total_rows" &&
    (kvs.map Prod.fst).contains "total_columns" &&
    (kvs.map Prod.fst).contains "columns" &&
    (kvs.map Prod.fst).contains "missing_values" &&
    (kvs.map Prod.fst).contains "duplicate_rows" &&
    (kvs.map Prod.fst).all (fun k =>
      ["total_rows", "total_columns", "columns", "identifier_stats",
       "missing_values", "duplicate_rows"].contains k) &&
    kvs.all (fun p =>
      if p.1 = "columns" then specColumnsShape p.2
      else if p.1 = "identifier_stats" then specIdStatsShape p.2
      else if p.1 = "missing_values" then
        (match p.2 with
         | .obj ms => ms.all (fun m => isNumJ m.2)
         | _ => false)
      else isNumJ p.2)
  | _ => false

/-- The top-level keys `pd.json_normalize` actually gives the report:
dot-flattened paths, with `missing_values` split into one key per
column. -/
def reportFlatKeys (r : Report) : List String :=
  ["total_rows", "total_columns", "columns.numeric", "columns.categorical"] ++
  (match r.identifier_stats with
   | some _ =>
     ["identifier_stats.min", "identifier_stats.max",
      "identifier_stats.mean", "identifier_stats.unique"]
   | none => []) ++
  r.missing_values.map (fun p => "missing_values." ++ p.1) ++
  ["duplicate_rows"]

/-- UTF-8 decoding of a byte sequence, failing on malformed sequences
(the failure that sends dashboard.py's loader to its fallback
encodings). -/
def utf8DecodeChars : List Nat → Option (List Char)
  | [] => some []
  | b :: rest =>
    if b < 0x80 then
      (utf8DecodeChars rest).map (fun cs => Char.ofNat b :: cs)
    else if 0xC2 ≤ b ∧ b ≤ 0xDF then
      match rest with
      | c1 :: rest2 =>
        if 0x80 ≤ c1 ∧ c1 ≤ 0xBF then
          (utf8DecodeChars rest2).map
            (fun cs => Char.ofNat ((b - 0xC0) * 64 + (c1 - 0x80)) :: cs)
        else none
      | [] => none
    else if 0xE0 ≤ b ∧ b ≤ 0xEF then
      match rest with
      | c1 :: c2 :: rest3 =>
        if (0x80 ≤ c1 ∧ c1 ≤ 0xBF) ∧ (0x80 ≤ c2 ∧ c2 ≤ 0xBF) then
          (utf8DecodeChars rest3).map
            (fun cs => Char.ofNat ((b - 0xE0) * 4096 + (c1 - 0x80) * 64 + (c2 - 0x80)) :: cs)
        else none
      | _ => none
    else if 0xF0 ≤ b ∧ b ≤ 0xF4 then
      match rest with
      | c1 :: c2 :: c3 :: rest4 =>
        if (0x80 ≤ c1 ∧ c1 ≤ 0xBF) ∧ (0x80 ≤ c2 ∧ c2 ≤ 0xBF) ∧ (0x80 ≤ c3 ∧ c3 ≤ 0xBF) then
          (utf8DecodeChars rest4).map
            (fun cs => Char.ofNat ((b - 0xF0) * 262144 + (c1 - 0x80) * 4096 + (c2 - 0x80) * 64 + (c3 - 0x80)) :: cs)
        else none
      | _ => none
    else none

def utf8Decode (raw : List Nat) : Option String :=
  (utf8DecodeChars raw).map String.mk

/-- latin-1 decoding: total, each byte is its own code point. -/
def latin1Decode (raw : List Nat) : String :=
  String.mk (raw.map Char.ofNat)

/-- Python's iso-8859-1 codec is the latin-1 codec. -/
def iso88591Decode (raw : List Nat) : String :=
  latin1Decode raw

/-- The parse of one tabular text file: header names and data rows as raw
fields. -/
structure Frame : Type where
  header : List String
  rows : List (List String)
  deriving DecidableEq

/-- Split a character sequence on a separator character (the empty
sequence yields one empty field, like Python's split). -/
def splitOnChar (sep : Char) : List Char → List (List Char)
  | [] => [[]]
  | c :: rest =>
    match splitOnChar sep rest with
    | [] => if c = sep then [[], []] else [[c]]
    | g :: gs => if c = sep then [] :: g :: gs else (c :: g) :: gs

/-- The fields of one line under a separator. -/
def splitFields (line : String) (sep : Char) : List String :=
  (splitOnChar sep line.data).map String.mk

/-- `pd.read_csv` with a (single-character) separator: first non-blank
line is the header, remaining non-blank lines are rows; a row with more
fields than the header raises a tokenizer error, and empty content
raises `EmptyDataError`. (Rows shorter than the header are kept; pandas
pads them with NaN.) -/
def readCsv (text : String) (sep : Char) : Except Unit Frame :=
  let ls := ((splitOnChar (Char.ofNat 10) text.data).map String.mk).filter
    (fun l => l ≠ "")
  match ls with
  | [] => .error ()
  | h :: rest =>
    let cols := splitFields h sep
    if rest.any (fun l => cols.length < (splitFields l sep).length) then .error ()
    else .ok ⟨cols, rest.map (fun l => splitFields l sep)⟩

/-- dashboard.py line 63: the ordered delimiter candidates. -/
def sepCandidates : List Char :=
  [',', '\t', ';', '|']

/-- One iteration of the first loader loop: utf-8 decode and parse with
one separator, accepting only a parse with more than one column; a
decode/parse failure or a single-column parse moves to the next
candidate. -/
def tryUtf8Sep (raw : List Nat) (sep : Char) : Option Frame :=
  match utf8Decode raw with
  | none => none
  | some text =>
    match readCsv text sep with
    | .error _ => none
    | .ok f => if 1 < f.header.length then some f else none

/-- dashboard.py lines 63–69: the first delimiter loop under utf-8. -/
def firstDelimiterPass (raw : List Nat) : Option Frame :=
  sepCandidates.findSome? (tryUtf8Sep raw)

/-- The loader's failure taxonomy. -/
inductive LoadErr : Type where
  | parseFailure : LoadErr
  | unsupported : LoadErr
  deriving DecidableEq

/-- dashboard.py lines 62–76: the `.csv`/`.tsv` branch of `load_dataset`.
After the delimiter loop, each fallback encoding is tried with
`pd.read_csv(raw, encoding=...)` — the default comma separator and no
column-count condition — and its result returned outright on success. -/
def load_dataset_csv (raw : List Nat) : Except LoadErr Frame :=
  match firstDelimiterPass raw with
  | some f => .ok f
  | none =>
    match readCsv (latin1Decode raw) ',' with
    | .ok f => .ok f
    | .error _ =>
      match readCsv (iso88591Decode raw) ',' with
      | .ok f => .ok f
      | .error _ => .error .parseFailure

def endsWithLower (filename suffix : String) : Bool :=
  suffix.data.isSuffixOf (filename.data.map Char.toLower)

/-- dashboard.py lines 52–80: `load_dataset(filename, raw)`. The two
`pd.read_json` attempts of the `.json` branch are library calls passed
in as parameters; every error escaping a branch surfaces as the
wrapped `ValueError`, i.e. a parse failure. -/
def load_dataset (readJson readJsonLines : List Nat → Except Unit Frame)
    (filename : String) (raw : List Nat) : Except LoadErr Frame :=
  if endsWithLower filename ".json" then
    match readJson raw with
    | .ok f => .ok f
    | .error _ =>
      match readJsonLines raw with
      | .ok f => .ok f
      | .error _ => .error .parseFailure
  else if endsWithLower filename ".csv" || endsWithLower filename ".tsv" then
    load_dataset_csv raw
  else .error .unsupported

/-- The byte content of an ASCII text file. -/
def strBytes (s : String) : List Nat :=
  s.toList.map Char.toNat

/-! ### Concrete inputs used in counterexamples and witnesses -/

/-- A frame with a boolean `Identifier` column (as `pd.read_csv` yields
for a CSV of True/False values). -/
def exBoolIdDf : Dataset :=
  ⟨[("Identifier", [Value.bool false, Value.bool true])]⟩

/-- The spec's worked example: a numeric `Identifier` column with values
5, 1, 5, 9. -/
def exIdDf : Dataset :=
  ⟨[("Identifier", [Value.int 5, Value.int 1, Value.int 5, Value.int 9])]⟩

/-- The report the batch code builds from `exIdDf`. -/
def exIdReport : Report :=
  { total_rows := 4
    total_columns := 1
    numeric := ["Identifier"]
    categorical := []
    identifier_stats := some ⟨1, 9, 5, 3⟩
    missing_values := [("Identifier", 0)]
    duplicate_rows := 1 }

/-- A frame holding nested (unhashable) cells, with two equal rows. -/
def exCompDf : Dataset :=
  ⟨[("a", [Value.composite [Value.int 1], Value.composite [Value.int 1]])]⟩

/-- A frame of plain scalar cells with one duplicated row. -/
def exHashDf : Dataset :=
  ⟨[("a", [Value.int 1, Value.int 1])]⟩

/-- Bytes of a single-column CSV: header `a`, rows `1` and `2`. -/
def exSingleBytes : List Nat :=
  strBytes "a\n1\n2"

/-- The single-column parse of `exSingleBytes`. -/
def exSingleFrame : Frame :=
  ⟨["a"], [["1"], ["2"]]⟩

/-- A stand-in for the `pd.read_json` library calls (never consulted on a
`.csv` filename). -/
def exJsonStub : List Nat → Except Unit Frame :=
  fun _ => .error ()

def exFrameA : Dataset :=
  ⟨[("id", [Value.int 1, Value.int 2]), ("val", [Value.int 10, Value.int 20])]⟩

def exFrameB : Dataset :=
  ⟨[("id", [Value.int 3]), ("val", [Value.int 30])]⟩

/-- A storage listing that returns `b.csv` before `a.csv`. -/
def exRevListing : List (String × Dataset) :=
  [("b.csv", exFrameB), ("a.csv", exFrameA)]

/-- A one-object listing for a successful batch run. -/
def exListing1 : List (String × Dataset) :=
  [("a.csv", ⟨[("x", [Value.int 1, Value.int 2])]⟩)]

/-- The report of the successful run over `exListing1`. -/
def exReport1 : Report :=
  { total_rows := 2
    total_columns := 2
    numeric := ["x"]
    categorical := ["source_file"]
    identifier_stats := none
    missing_values := [("x", 0), ("source_file", 0)]
    duplicate_rows := 0 }

/-- A dataset with a boolean column beside a numeric and a text one. -/
def exMixedDf : Dataset :=
  ⟨[("flag", [Value.bool true, Value.bool false]),
    ("n", [Value.int 1, Value.int 2]),
    ("t", [Value.text "x", Value.text "y"])]⟩

/-! ### Helper lemmas -/

/-- In a column list whose names are distinct, a name determines its
column. -/
theorem snd_eq_of_keys_nodup :
    ∀ (l : List (String × List Value)), (l.map Prod.fst).Nodup →
      ∀ (a : String) (b b2 : List Value), (a, b) ∈ l → (a, b2) ∈ l → b = b2 := by
  intro l
  induction l with
  | nil => intro _ a b b2 h1; cases h1
  | cons p rest ih =>
    rcases p with ⟨p1, p2⟩
    intro hnd a b b2 h1 h2
    simp only [List.map_cons, List.nodup_cons] at hnd
    rcases List.mem_cons.mp h1 with h1 | h1 <;>
      rcases List.mem_cons.mp h2 with h2 | h2
    · injection h1 with ha hb
      injection h2 with hc hd
      rw [hb, hd]
    · injection h1 with ha hb
      exact absurd (ha ▸ List.mem_map_of_mem Prod.fst h2) hnd.1
    · injection h2 with hc hd
      exact absurd (hc ▸ List.mem_map_of_mem Prod.fst h1) hnd.1
    · exact ih hnd.2 a b b2 h1 h2

/-- A keyed `find?` succeeds exactly when the key occurs. -/
theorem find?_key_isSome (l : List (String × List Value)) (c : String) :
    (l.find? (fun p => p.1 = c)).isSome = true ↔ c ∈ l.map Prod.fst := by
  induction l with
  | nil => simp
  | cons p rest ih =>
    by_cases h : p.1 = c
    · rw [List.find?_cons_of_pos _ (by simp [h])]
      simp [h]
    · rw [List.find?_cons_of_neg _ (by simp [h])]
      simp only [List.map_cons, List.mem_cons, ih]
      constructor
      · intro hm; exact Or.inr hm
      · rintro (hm | hm)
        · exact absurd hm.symm h
        · exact hm

/-- `df[c]` finds a value exactly when `c` is among the column names. -/
theorem getCol_isSome (df : Dataset) (c : String) :
    (df.getCol c).isSome = true ↔ c ∈ df.names := by
  rcases df with ⟨cols⟩
  rw [show Dataset.getCol ⟨cols⟩ c = (cols.find? (fun p => p.1 = c)).map Prod.snd from rfl]
  rw [show Dataset.names ⟨cols⟩ = cols.map Prod.fst from rfl]
  rw [← find?_key_isSome cols c]
  cases cols.find? (fun p => p.1 = c) <;> simp

/-- A column of uniformly text cells gets dtype `object`. -/
theorem inferDType_of_allText (vs : List Value)
    (h : vs.all Value.isText = true) : inferDType vs = .objectDT := by
  cases vs with
  | nil => simp [inferDType]
  | cons v rest =>
    simp only [List.all_cons, Bool.and_eq_true] at h
    cases v <;> simp_all [inferDType, Value.isText, Value.isBool, Value.isInt,
      Value.isFloat, Value.isNull]

/-- `astype(str)` leaves only hashable (text) cells. -/
theorem strFrame_allHashable (df : Dataset) :
    df.strFrame.allHashable = true := by
  rcases df with ⟨cols⟩
  simp [Dataset.strFrame, Dataset.allHashable, List.all_map, Function.comp,
    Value.hashable]

instance {ε α : Type} [DecidableEq ε] [DecidableEq α] : DecidableEq (Except ε α) :=
  fun a b =>
    match a, b with
    | .error e, .error f =>
      if h : e = f then .isTrue (by rw [h])
      else .isFalse (by intro hc; injection hc; exact h ‹_›)
    | .ok x, .ok y =>
      if h : x = y then .isTrue (by rw [h])
      else .isFalse (by intro hc; injection hc; exact h ‹_›)
    | .error _, .ok _ => .isFalse (fun hc => Except.noConfusion hc)
    | .ok _, .error _ => .isFalse (fun hc => Except.noConfusion hc)

theorem exbind_ok {ε β γ : Type} (a : β) (f : β → Except ε γ) :
    (Except.ok a >>= f) = f a := rfl

theorem exbind_err {ε β γ : Type} (e : ε) (f : β → Except ε γ) :
    ((Except.error e : Except ε β) >>= f) = Except.error e := rfl

/-- A successful `identifierStatsE` carries a stats block exactly when
the `Identifier` column exists. -/
theorem identifierStatsE_isSome (df : Dataset) (stats : Option IdStats)
    (h : identifierStatsE df = .ok stats) :
    stats.isSome = (df.getCol "Identifier").isSome := by
  unfold identifierStatsE at h
  rcases hg : df.getCol "Identifier" with _ | vs
  · rw [hg] at h
    dsimp only at h
    simp only [Except.ok.injEq] at h
    rw [← h]
    rfl
  rw [hg] at h
  dsimp only at h
  rcases hm : seriesMin vs with u | mnv
  · rw [hm, exbind_err] at h; exact Except.noConfusion h
  rw [hm, exbind_ok] at h
  rcases h1 : pyInt mnv with u | mn
  · rw [h1, exbind_err] at h; exact Except.noConfusion h
  rw [h1, exbind_ok] at h
  rcases h2 : seriesMax vs with u | mxv
  · rw [h2, exbind_err] at h; exact Except.noConfusion h
  rw [h2, exbind_ok] at h
  rcases h3 : pyInt mxv with u | mx
  · rw [h3, exbind_err] at h; exact Except.noConfusion h
  rw [h3, exbind_ok] at h
  rcases h4 : seriesMean vs with u | me
  · rw [h4, exbind_err] at h; exact Except.noConfusion h
  rw [h4, exbind_ok] at h
  rcases h5 : nuniqueE vs with u | uq
  · rw [h5, exbind_err] at h; exact Except.noConfusion h
  rw [h5, exbind_ok] at h
  simp only [Except.ok.injEq] at h
  rw [← h]
  rfl

/-- The fields of a successfully built report, read back from the
assembly. -/
theorem buildReport_ok (df : Dataset) (r : Report) (h : buildReport df = .ok r) :
    r.total_rows = df.nRows ∧ r.total_columns = df.cols.length ∧
    r.numeric = numericCols df ∧ r.categorical = categoricalCols df ∧
    identifierStatsE df = .ok r.identifier_stats ∧
    r.missing_values = missingValues df ∧
    duplicatedSumE df = .ok r.duplicate_rows := by
  unfold buildReport at h
  rcases hs : identifierStatsE df with u | stats
  · rw [hs, exbind_err] at h; exact Except.noConfusion h
  rw [hs, exbind_ok] at h
  rcases hd : duplicatedSumE df with u | d
  · rw [hd, exbind_err] at h; exact Except.noConfusion h
  rw [hd, exbind_ok] at h
  simp only [Except.ok.injEq] at h
  rw [← h]
  exact ⟨rfl, rfl, rfl, rfl, rfl, rfl, rfl⟩

/-! ### C9 -/

/-- C9: publishing is idempotent and deterministic — republishing the
same report leaves the store unchanged, and the stored bytes are exactly
the serialization of the report, a pure function of its content. -/
theorem publish_idempotent_c9 (r : Report) (s : Store) :
    publish r (publish r s) = publish r s ∧
    getObjectS (publish r s) "batch-data" "analytics_report.json" =
      some (serializeReport r) := by
  constructor
  · simp [publish, putObjectS, List.filter_filter]
  · simp [publish, putObjectS, getObjectS, List.find?]

/-! ### C7 -/

/-- C7: `safe_nunique` never raises — with every cell hashable it returns
the exact distinct count of the non-null values, otherwise the distinct
count of the cells' text representations; it never reaches the "N/A"
sentinel because the text fallback always succeeds. -/
theorem safe_nunique_total_c7 (vs : List Value) :
    (vs.all Value.hashable = true →
      safe_nunique vs =
        .count ((vs.filter (fun v => !v.isNull)).dedup.length)) ∧
    (vs.all Value.hashable = false →
      safe_nunique vs =
        .count ((vs.map (fun v => Value.text (pyStrCell v))).dedup.length)) ∧
    safe_nunique vs ≠ .na := by
  refine ⟨?_, ?_, ?_⟩
  · intro h
    simp [safe_nunique, nuniqueE, h]
  · intro h
    have hfix : (vs.map (fun v => Value.text (pyStrCell v))).filter
        (fun v => !v.isNull) = vs.map (fun v => Value.text (pyStrCell v)) := by
      apply List.filter_eq_self.mpr
      intro v hv
      simp only [List.mem_map] at hv
      obtain ⟨w, _, rfl⟩ := hv
      rfl
    simp [safe_nunique, nuniqueE, h, List.all_map, Function.comp,
      Value.hashable, hfix]
  · cases h : vs.all Value.hashable
    · simp [safe_nunique, nuniqueE, h, List.all_map, Function.comp,
        Value.hashable]
    · simp [safe_nunique, nuniqueE, h]

/-- Witness for C7 at a column of nested cells. -/
theorem safe_nunique_total_c7_witness :
    safe_nunique [Value.composite [Value.int 1], Value.composite [Value.int 1],
      Value.composite [Value.int 2]] =
      .count (([Value.composite [Value.int 1], Value.composite [Value.int 1],
        Value.composite [Value.int 2]].map
          (fun v => Value.text (pyStrCell v))).dedup.length) :=
  (safe_nunique_total_c7 _).2.1 (by decide)

/-! ### C5 -/

/-- C5: a boolean-dtype column is never classified numeric — it is absent
from the `select_dtypes("number")` list, present in the categorical list,
and the dashboard's `is_numeric_safe` check rejects it. -/
theorem bool_not_numeric_c5 (df : Dataset) (name : String) (vs : List Value)
    (hmem : (name, vs) ∈ df.cols) (hdt : inferDType vs = .boolDT)
    (hnd : df.names.Nodup) :
    name ∉ numericCols df ∧ name ∈ categoricalCols df ∧
      is_numeric_safe vs = false := by
  refine ⟨?_, ?_, ?_⟩
  · intro hin
    simp only [numericCols, List.mem_map, List.mem_filter] at hin
    obtain ⟨⟨name2, vs2⟩, ⟨hmem2, hnum⟩, hfst⟩ := hin
    have hn : name2 = name := hfst
    have : vs2 = vs :=
      snd_eq_of_keys_nodup df.cols hnd name vs2 vs (hn ▸ hmem2) hmem
    rw [this, hdt] at hnum
    simp [isNumberDType] at hnum
  · simp only [categoricalCols, List.mem_map]
    refine ⟨(name, vs), List.mem_filter.mpr ⟨hmem, ?_⟩, rfl⟩
    simp [hdt, isNumberDType]
  · simp [is_numeric_safe, hdt, is_numeric_dtype, is_bool_dtype]

/-- Witness for C5 at a frame with a boolean column. -/
theorem bool_not_numeric_c5_witness :
    "flag" ∉ numericCols exMixedDf ∧ "flag" ∈ categoricalCols exMixedDf ∧
      is_numeric_safe [Value.bool true, Value.bool false] = false :=
  bool_not_numeric_c5 exMixedDf "flag" [Value.bool true, Value.bool false]
    (by decide) (by decide) (by decide)

/-! ### C6 -/

/-- C6: an empty listing aborts the run with "No input files found" and
no object write; in every run, a write to the output object happens only
when the whole report was assembled, as the single final publish of its
serialization — so a failed run leaves the previous report untouched. -/
theorem no_partial_write_c6 :
    runBatch [] = (.error "No input files found", []) ∧
    (∀ (listing : List (String × Dataset)) (e : String),
      (runBatch listing).1 = .error e → (runBatch listing).2 = []) ∧
    (∀ (listing : List (String × Dataset)) (r : Report),
      (runBatch listing).1 = .ok r →
        (runBatch listing).2 =
          [.putObject "batch-data" "analytics_report.json" (serializeReport r)]) := by
  refine ⟨rfl, ?_, ?_⟩
  · intro listing e h
    by_cases hl : listing.isEmpty
    · simp [runBatch, hl]
    · cases hb : buildReport (unifiedFrame listing) with
      | error u => simp [runBatch, hl, hb]
      | ok r => simp [runBatch, hl, hb] at h
  · intro listing r h
    by_cases hl : listing.isEmpty
    · simp [runBatch, hl] at h
    · cases hb : buildReport (unifiedFrame listing) with
      | error u => simp [runBatch, hl, hb] at h
      | ok r2 =>
        simp only [runBatch, hl, hb, if_neg, Bool.false_eq_true,
          not_false_eq_true] at h ⊢
        simp at h
        rw [h]

/-- Witness for C6 at a successful one-file run. -/
theorem no_partial_write_c6_witness :
    (runBatch exListing1).2 =
      [.putObject "batch-data" "analytics_report.json" (serializeReport exReport1)] :=
  no_partial_write_c6.2.2 exListing1 exReport1 (by rfl)

/-! ### C2 -/

/-- Counterexample to C2: a boolean `Identifier` column is not numeric
(it is classified categorical, per the code's own `select_dtypes`
split), yet the batch code emits `identifier_stats` for it — the code
checks only membership of the name, not numeric dtype. -/
theorem identifier_stats_counterexample_c2 :
    (buildReport exBoolIdDf).map (fun r => r.identifier_stats.isSome) = .ok true ∧
    (buildReport exBoolIdDf).map
        (fun r => r.identifier_stats.map (fun s => (s.min, s.max, s.unique))) =
      .ok (some (0, 1, 2)) ∧
    (buildReport exBoolIdDf).map (fun r => r.numeric) = .ok [] ∧
    (buildReport exBoolIdDf).map (fun r => r.categorical) = .ok ["Identifier"] := by
  refine ⟨by decide, by decide, by decide, by decide⟩

/-- C2 (amended): in every successful batch run the `identifier_stats`
section is present iff a column named `Identifier` exists, with no
numericness requirement; when one of its statistics raises (e.g. a
non-numeric text column), the run aborts instead of omitting the
section. -/
theorem identifier_stats_iff_c2 (df : Dataset) (r : Report)
    (h : buildReport df = .ok r) :
    r.identifier_stats.isSome = true ↔ "Identifier" ∈ df.names := by
  have h1 := (buildReport_ok df r h).2.2.2.2.1
  have h2 := identifierStatsE_isSome df r.identifier_stats h1
  rw [h2, getCol_isSome]

theorem seriesMean_exId :
    seriesMean [Value.int 5, Value.int 1, Value.int 5, Value.int 9] = .ok 5 := by
  simp [seriesMean, seriesNonNull, Value.isNull, Value.numVal]
  norm_num

/-- The spec's worked example holds in the code: `Identifier` values
5, 1, 5, 9 give stats min 1, max 9, mean 5, unique 3. -/
theorem identifierStatsE_exId :
    identifierStatsE exIdDf = .ok (some ⟨1, 9, 5, 3⟩) := by
  unfold identifierStatsE
  rw [show exIdDf.getCol "Identifier" =
    some [Value.int 5, Value.int 1, Value.int 5, Value.int 9] from rfl]
  dsimp only
  rw [show seriesMin [Value.int 5, Value.int 1, Value.int 5, Value.int 9] =
    .ok (Value.int 1) from by decide]
  rw [exbind_ok]
  rw [show pyInt (Value.int 1) = .ok 1 from rfl, exbind_ok]
  rw [show seriesMax [Value.int 5, Value.int 1, Value.int 5, Value.int 9] =
    .ok (Value.int 9) from by decide]
  rw [exbind_ok]
  rw [show pyInt (Value.int 9) = .ok 9 from rfl, exbind_ok]
  rw [seriesMean_exId, exbind_ok]
  rw [show nuniqueE [Value.int 5, Value.int 1, Value.int 5, Value.int 9] =
    .ok 3 from by decide]
  rw [exbind_ok]

theorem buildReport_exId : buildReport exIdDf = .ok exIdReport := by
  unfold buildReport
  rw [identifierStatsE_exId, exbind_ok]
  rw [show duplicatedSumE exIdDf = .ok 1 from by decide, exbind_ok]
  rfl

/-- Witness for C2 at the spec's worked example (`Identifier` values
5, 1, 5, 9 give stats min 1, max 9, mean 5, unique 3). -/
theorem identifier_stats_iff_c2_witness :
    exIdReport.identifier_stats.isSome = true ↔ "Identifier" ∈ exIdDf.names :=
  identifier_stats_iff_c2 exIdDf exIdReport buildReport_exId

/-! ### C3 -/

/-- Counterexample to C3: for a single-column file (`a` / `1` / `2`), no
candidate delimiter yields more than one column under any of the three
encodings (the bytes are plain ASCII, identical under all of them), yet
`load_dataset` returns a single-column parse instead of a ParseFailure —
the fallback-encoding pass uses only the default comma delimiter and
performs no column-count check. -/
theorem loader_counterexample_c3 :
    load_dataset exJsonStub exJsonStub "data.csv" exSingleBytes = .ok exSingleFrame ∧
    exSingleFrame.header.length = 1 ∧
    firstDelimiterPass exSingleBytes = none ∧
    (readCsv "a\n1\n2" ',').map (fun f => f.header.length) = .ok 1 ∧
    (readCsv "a\n1\n2" '\t').map (fun f => f.header.length) = .ok 1 ∧
    (readCsv "a\n1\n2" ';').map (fun f => f.header.length) = .ok 1 ∧
    (readCsv "a\n1\n2" '|').map (fun f => f.header.length) = .ok 1 ∧
    utf8Decode exSingleBytes = some "a\n1\n2" ∧
    latin1Decode exSingleBytes = "a\n1\n2" ∧
    iso88591Decode exSingleBytes = "a\n1\n2" := by
  refine ⟨by decide, by decide, by decide, by decide, by decide, by decide,
    by decide, by decide, by decide, by decide⟩

/-- C3 (amended): when the utf-8 delimiter loop accepts nothing, the
fallback-encoding pass does not retry the delimiter candidates and
imposes no more-than-one-column condition: it returns whatever
`pd.read_csv` yields under latin-1 with the default comma separator —
single-column parses included — and only when that read itself fails
(so does the identical iso-8859-1 read) does the loader raise
ParseFailure. -/
theorem loader_fallback_c3 (raw : List Nat)
    (h : firstDelimiterPass raw = none) :
    (∀ f : Frame, readCsv (latin1Decode raw) ',' = .ok f →
      load_dataset_csv raw = .ok f) ∧
    (readCsv (latin1Decode raw) ',' = .error () →
      load_dataset_csv raw = .error .parseFailure) := by
  constructor
  · intro f hr
    unfold load_dataset_csv
    rw [h, hr]
  · intro hr
    unfold load_dataset_csv
    rw [h, hr]
    unfold iso88591Decode
    rw [hr]

/-- Witness for C3 at the single-column bytes. -/
theorem loader_fallback_c3_witness :
    load_dataset_csv exSingleBytes = .ok exSingleFrame :=
  (loader_fallback_c3 exSingleBytes (by decide)).1 exSingleFrame (by decide)

/-! ### C8 -/

/-- Counterexample to C8: on a frame holding nested (unhashable) cells,
the batch report's duplicate count `int(df.duplicated().sum())`
(processor.py line 59) raises instead of falling back — the
exact/approximate/unavailable chain exists only in the dashboard. -/
theorem duplicates_counterexample_c8 :
    duplicatedSumE exCompDf = .error () ∧
    dashboardDupCount exCompDf = .approx 1 := by
  refine ⟨by decide, by decide⟩

/-- C8 (amended): the degradation chain lives in the dashboard's
duplicate panel — exact count when every cell is hashable, otherwise the
`astype(str)` approximate count; the batch report instead calls
`df.duplicated().sum()` directly, which raises on any unhashable cell
and aborts the run. -/
theorem duplicates_fallback_c8 (df : Dataset) :
    (df.allHashable = true →
      duplicatedSumE df = .ok (dupCount df.rowsOf) ∧
      dashboardDupCount df = .exact (dupCount df.rowsOf)) ∧
    (df.allHashable = false →
      duplicatedSumE df = .error () ∧
      dashboardDupCount df = .approx (dupCount df.strFrame.rowsOf)) := by
  constructor
  · intro h
    constructor
    · simp [duplicatedSumE, h]
    · simp [dashboardDupCount, duplicatedSumE, h]
  · intro h
    constructor
    · simp [duplicatedSumE, h]
    · simp [dashboardDupCount, duplicatedSumE, h, strFrame_allHashable]

/-- Witness for C8 at a frame of hashable cells with one duplicate row. -/
theorem duplicates_fallback_c8_witness :
    duplicatedSumE exHashDf = .ok (dupCount exHashDf.rowsOf) ∧
    dashboardDupCount exHashDf = .exact (dupCount exHashDf.rowsOf) :=
  (duplicates_fallback_c8 exHashDf).1 (by decide)

/-! ### C4 -/

/-- After an in-place column replacement, the key finds the new value. -/
theorem find?_set_key (cols : List (String × List Value)) (c : String)
    (vs : List Value) (h : c ∈ cols.map Prod.fst) :
    (cols.map (fun p => if p.1 = c then (c, vs) else p)).find?
      (fun p => p.1 = c) = some (c, vs) := by
  induction cols with
  | nil => cases h
  | cons p rest ih =>
    by_cases hp : p.1 = c
    · simp only [List.map_cons, if_pos hp]
      rw [List.find?_cons_of_pos _ (by simp)]
    · simp only [List.map_cons, if_neg hp]
      rw [List.find?_cons_of_neg _ (by simp [hp])]
      apply ih
      rcases List.mem_cons.mp h with h1 | h1
      · exact absurd h1.symm hp
      · exact h1

/-- Column assignment makes the assigned value retrievable. -/
theorem getCol_setCol (df : Dataset) (c : String) (vs : List Value) :
    (df.setCol c vs).getCol c = some vs := by
  unfold Dataset.setCol
  by_cases h : c ∈ df.names
  · rw [if_pos h]
    unfold Dataset.getCol
    rw [find?_set_key df.cols c vs h]
    rfl
  · rw [if_neg h]
    unfold Dataset.getCol
    rw [List.find?_append]
    have h1 : df.cols.find? (fun p => p.1 = c) = none := by
      rcases hf : df.cols.find? (fun p => p.1 = c) with _ | p
      · exact hf
      · exfalso
        apply h
        show c ∈ df.cols.map Prod.fst
        rw [← find?_key_isSome df.cols c, hf]
        rfl
    rw [h1]
    rw [List.find?_cons_of_pos _ (by simp)]
    rfl

/-- Column assignment keeps or adds the assigned name. -/
theorem mem_names_setCol (df : Dataset) (c : String) (vs : List Value) :
    c ∈ (df.setCol c vs).names := by
  rw [← getCol_isSome]
  rw [getCol_setCol]
  rfl

/-- The union-of-names fold only grows its accumulator. -/
theorem mem_foldl_unionNames (frames : List Dataset) (acc : List String)
    (c : String) (h : c ∈ acc) :
    c ∈ frames.foldl
      (fun acc f => acc ++ (f.names.filter (fun c => c ∉ acc))) acc := by
  induction frames generalizing acc with
  | nil => exact h
  | cons f rest ih => exact ih _ (List.mem_append_left _ h)

/-- A name of the first frame is in the column union. -/
theorem mem_unionNames_head (f : Dataset) (rest : List Dataset) (c : String)
    (h : c ∈ f.names) :
    c ∈ unionNames (f :: rest) := by
  unfold unionNames
  rw [List.foldl_cons]
  apply mem_foldl_unionNames
  simpa using h

/-- `find?` by key over a keyed image of a name list. -/
theorem find?_map_mk_key {β : Type} (l : List String) (F : String → β)
    (c : String) (h : c ∈ l) :
    ((l.map (fun k => (k, F k))).find? (fun p => p.1 = c)) = some (c, F c) := by
  induction l with
  | nil => cases h
  | cons k rest ih =>
    by_cases hk : k = c
    · rw [hk, List.map_cons, List.find?_cons_of_pos _ (by simp)]
    · rw [List.map_cons, List.find?_cons_of_neg _ (by simp [hk])]
      apply ih
      rcases List.mem_cons.mp h with h1 | h1
      · exact absurd h1.symm hk
      · exact h1

/-- `pd.concat` reads back, for a column in the union, the rows of every
frame in sequence — a frame's own values, or nulls where it lacks the
column. -/
theorem getCol_concatFrames (frames : List Dataset) (c : String)
    (h : c ∈ unionNames frames) :
    (concatFrames frames).getCol c =
      some (frames.flatMap (fun f =>
        match f.getCol c with
        | some vs => vs
        | none => List.replicate f.nRows Value.null)) := by
  unfold concatFrames Dataset.getCol
  rw [find?_map_mk_key (unionNames frames) _ c h]
  rfl

/-- Tagging writes the provenance column as one name per row. -/
theorem getCol_tagFrame (f : Dataset) (name : String) :
    (tagFrame f name).getCol "source_file" =
      some (List.replicate f.nRows (Value.text name)) :=
  getCol_setCol f "source_file" _

/-- The provenance column of the unified frame lists each object's name
once per row, in listing order. -/
theorem getCol_unifiedFrame (listing : List (String × Dataset))
    (h : listing ≠ []) :
    (unifiedFrame listing).getCol "source_file" =
      some (listing.flatMap
        (fun p => List.replicate p.2.nRows (Value.text p.1))) := by
  unfold unifiedFrame
  have hmem : "source_file" ∈ unionNames (listing.map (fun p => tagFrame p.2 p.1)) := by
    rcases listing with _ | ⟨p, rest⟩
    · exact absurd rfl h
    · rw [List.map_cons]
      exact mem_unionNames_head _ _ _ (mem_names_setCol p.2 "source_file" _)
  rw [getCol_concatFrames _ _ hmem]
  rw [List.flatMap_map]
  congr 1
  apply List.flatMap_congr
  intro p hp
  rw [getCol_tagFrame p.2 p.1]

/-- A retrievable column is one of the DataFrame's column entries. -/
theorem mem_cols_of_getCol (df : Dataset) (c : String) (vs : List Value)
    (h : df.getCol c = some vs) : (c, vs) ∈ df.cols := by
  unfold Dataset.getCol at h
  rcases hf : df.cols.find? (fun p => p.1 = c) with _ | p
  · rw [hf] at h; cases h
  · rw [hf] at h
    have hp := List.find?_some hf
    have hm := List.mem_of_find?_eq_some hf
    obtain ⟨p1, p2⟩ := p
    have e1 : p1 = c := by simpa using hp
    have e2 : p2 = vs := by simpa using h
    rw [← e1, ← e2]
    exact hm

/-- Counterexample to C4: with a storage listing that returns `b.csv`
before `a.csv`, the unified frame holds b's row before a's rows — rows
follow the listing order (the code performs no sort), not the stable
lexical filename order the claim promises for any listing order. -/
theorem concat_order_counterexample_c4 :
    (unifiedFrame exRevListing).getCol "source_file" =
      some [Value.text "b.csv", Value.text "a.csv", Value.text "a.csv"] ∧
    "a.csv" < "b.csv" ∧
    (unifiedFrame exRevListing).getCol "source_file" ≠
      some [Value.text "a.csv", Value.text "a.csv", Value.text "b.csv"] := by
  refine ⟨by decide, by rw [String.lt_iff_toList_lt]; decide, by decide⟩

/-- C4 (amended): the unified dataset's rows follow the order in which
the storage listing returned the objects — each object's rows appear as
a contiguous block, blocks in listing order, as witnessed by the
provenance column; lexical filename order holds only insofar as the
listing itself is lexically sorted. -/
theorem concat_order_c4 (listing : List (String × Dataset))
    (h : listing ≠ []) :
    (unifiedFrame listing).getCol "source_file" =
      some (listing.flatMap
        (fun p => List.replicate p.2.nRows (Value.text p.1))) :=
  getCol_unifiedFrame listing h

/-- Witness for C4 at the reversed listing. -/
theorem concat_order_c4_witness :
    (unifiedFrame exRevListing).getCol "source_file" =
      some (exRevListing.flatMap
        (fun p => List.replicate p.2.nRows (Value.text p.1))) :=
  concat_order_c4 exRevListing (by decide)

/-! ### C10 -/

/-- A filter and its complement split a list's length. -/
theorem length_filter_split {α : Type} (p : α → Bool) (l : List α) :
    (l.filter p).length + (l.filter (fun a => !p a)).length = l.length := by
  induction l with
  | nil => rfl
  | cons a rest ih =>
    cases h : p a <;> simp [List.filter_cons, h, ← ih] <;> omega

/-- Each of the listing's frames contributes only text cells to the
provenance column. -/
theorem sourceCol_allText (listing : List (String × Dataset)) :
    (listing.flatMap
      (fun p => List.replicate p.2.nRows (Value.text p.1))).all
        Value.isText = true := by
  apply List.all_eq_true.mpr
  intro v hv
  obtain ⟨p, hp, hv2⟩ := List.mem_flatMap.mp hv
  rw [List.eq_of_mem_replicate hv2]
  rfl

/-- C10: in every successfully built report the numeric and categorical
lists partition the unified dataset's column names — each name is in
exactly one list, both lists draw from the dataset's columns, and their
lengths sum to `total_columns`; moreover the `source_file` provenance
column of a unified frame is always classified categorical. -/
theorem columns_partition_c10 (df : Dataset) (r : Report)
    (h : buildReport df = .ok r) (hnd : df.names.Nodup) :
    (∀ c, c ∈ df.names → (c ∈ r.numeric ↔ c ∉ r.categorical)) ∧
    (∀ c, c ∈ r.numeric → c ∈ df.names) ∧
    (∀ c, c ∈ r.categorical → c ∈ df.names) ∧
    r.numeric.length + r.categorical.length = r.total_columns ∧
    (∀ listing : List (String × Dataset), listing ≠ [] →
      "source_file" ∈ categoricalCols (unifiedFrame listing)) := by
  obtain ⟨htr, htc, hnum, hcat, hidst, hmiss, hdup⟩ := buildReport_ok df r h
  rw [hnum, hcat, htc]
  refine ⟨?_, ?_, ?_, ?_, ?_⟩
  · intro c hc
    constructor
    · intro h1 h2
      simp only [numericCols, categoricalCols, List.mem_map,
        List.mem_filter] at h1 h2
      obtain ⟨⟨n1, v1⟩, ⟨hm1, hp1⟩, hf1⟩ := h1
      obtain ⟨⟨n2, v2⟩, ⟨hm2, hp2⟩, hf2⟩ := h2
      have e1 : n1 = c := hf1
      have e2 : n2 = c := hf2
      have hv : v1 = v2 :=
        snd_eq_of_keys_nodup df.cols hnd c v1 v2 (e1 ▸ hm1) (e2 ▸ hm2)
      rw [hv] at hp1
      rw [hp1] at hp2
      simp at hp2
    · intro h2
      have hex : ∃ vs, (c, vs) ∈ df.cols := by
        obtain ⟨⟨n, vs⟩, hm, hf⟩ := List.mem_map.mp hc
        exact ⟨vs, (show n = c from hf) ▸ hm⟩
      obtain ⟨vs, hm⟩ := hex
      by_cases hp : isNumberDType (inferDType vs) = true
      · exact List.mem_map.mpr ⟨(c, vs), List.mem_filter.mpr ⟨hm, hp⟩, rfl⟩
      · exfalso
        apply h2
        refine List.mem_map.mpr ⟨(c, vs), List.mem_filter.mpr ⟨hm, ?_⟩, rfl⟩
        simp [Bool.eq_false_iff.mpr hp]
  · intro c h1
    simp only [numericCols, List.mem_map, List.mem_filter] at h1
    obtain ⟨p, ⟨hm, _⟩, hf⟩ := h1
    exact hf ▸ List.mem_map_of_mem Prod.fst hm
  · intro c h1
    simp only [categoricalCols, List.mem_map, List.mem_filter] at h1
    obtain ⟨p, ⟨hm, _⟩, hf⟩ := h1
    exact hf ▸ List.mem_map_of_mem Prod.fst hm
  · simp only [numericCols, categoricalCols, List.length_map]
    exact length_filter_split _ _
  · intro listing hl
    have hg := getCol_unifiedFrame listing hl
    have hpair := mem_cols_of_getCol _ _ _ hg
    have hdt := inferDType_of_allText _ (sourceCol_allText listing)
    refine List.mem_map.mpr ⟨_, List.mem_filter.mpr ⟨hpair, ?_⟩, rfl⟩
    simp [hdt, isNumberDType]

/-- Witness for C10 at the unified frame of the one-file run. -/
theorem columns_partition_c10_witness :
    exReport1.numeric.length + exReport1.categorical.length =
      exReport1.total_columns :=
  (columns_partition_c10 (unifiedFrame exListing1) exReport1
    (by decide) (by decide)).2.2.2.1

/-! ### C1 -/

/-- Record flattening distributes over entry concatenation. -/
theorem flattenEntries_append (l1 l2 : List (String × Json)) :
    flattenEntries (l1 ++ l2) = flattenEntries l1 ++ flattenEntries l2 := by
  induction l1 with
  | nil => rfl
  | cons p rest ih =>
    rcases p with ⟨k, v⟩
    rw [List.cons_append]
    rw [show flattenEntries ((k, v) :: (rest ++ l2)) =
      flattenEntry k v ++ flattenEntries (rest ++ l2) from rfl]
    rw [show flattenEntries ((k, v) :: rest) =
      flattenEntry k v ++ flattenEntries rest from rfl]
    rw [ih, List.append_assoc]

/-- Flattening leaves a record of number leaves unchanged. -/
theorem flattenEntries_num_map {α : Type} (l : List α) (k : α → String)
    (f : α → ℚ) :
    flattenEntries (l.map (fun p => (k p, Json.num (f p)))) =
      l.map (fun p => (k p, Json.num (f p))) := by
  induction l with
  | nil => rfl
  | cons p rest ih =>
    rw [List.map_cons]
    rw [show flattenEntries ((k p, Json.num (f p)) :: rest.map
      (fun p => (k p, Json.num (f p)))) =
      flattenEntry (k p) (Json.num (f p)) ++ flattenEntries (rest.map
        (fun p => (k p, Json.num (f p)))) from rfl]
    rw [ih]
    rfl

/-- The flattened report record's keys are the dot-joined paths. -/
theorem flat_reportDict_keys (r : Report) :
    (flattenEntries (reportDict r)).map Prod.fst = reportFlatKeys r := by
  unfold reportDict reportFlatKeys
  rw [flattenEntries_append, flattenEntries_append]
  rcases hs : r.identifier_stats with _ | s <;>
    simp [flattenEntries, flattenEntry, flattenEntries_num_map,
      List.map_map, Function.comp]

/-- No key of the serialized report document is the spec's `columns`
key: the fixed paths differ from it, and every `missing_values.`-path is
longer than the seven characters of `columns`. -/
theorem columns_not_mem_flatKeys (r : Report) :
    "columns" ∉ reportFlatKeys r := by
  intro hmem
  unfold reportFlatKeys at hmem
  rcases List.mem_append.mp hmem with h | h
  swap
  · simp only [List.mem_cons, List.not_mem_nil, or_false] at h
    exact absurd h (by decide)
  rcases List.mem_append.mp h with h | h
  swap
  · obtain ⟨p, hp, he⟩ := List.mem_map.mp h
    have hlen := congrArg String.length he
    rw [String.length_append] at hlen
    have h7 : "missing_values.".length = 15 := by decide
    have h8 : "columns".length = 7 := by decide
    rw [h7, h8] at hlen
    omega
  rcases List.mem_append.mp h with h | h
  · simp only [List.mem_cons, List.not_mem_nil, or_false] at h
    rcases h with h | h | h | h <;> exact absurd h (by decide)
  · rcases hs : r.identifier_stats with _ | s <;> rw [hs] at h
    · cases h
    · simp only [List.mem_cons, List.not_mem_nil, or_false] at h
      rcases h with h | h | h | h <;> exact absurd h (by decide)

/-- C1 (amended): the published document's top-level keys are the
dot-flattened paths (`total_rows`, `total_columns`, `columns.numeric`,
`columns.categorical`, optional `identifier_stats.{min,max,mean,unique}`,
one `missing_values.<column>` key per column, `duplicate_rows`), every
top-level value is nested under the single row-index key "0", and in
particular the document never has the exact nested shape with scalar
values that the spec promises. -/
theorem report_shape_c1 (r : Report) :
    jsonKeys (reportToJson r) = reportFlatKeys r ∧
    (jsonTopVals (reportToJson r)).all isIdxWrapped = true ∧
    specReportShape (reportToJson r) = false := by
  have hks : ((flattenEntries (reportDict r)).map
      (fun p => (p.1, Json.obj [("0", p.2)]))).map Prod.fst =
      reportFlatKeys r := by
    rw [List.map_map]
    exact flat_reportDict_keys r
  refine ⟨?_, ?_, ?_⟩
  · unfold reportToJson jsonKeys
    dsimp only
    exact hks
  · unfold reportToJson jsonTopVals
    dsimp only
    apply List.all_eq_true.mpr
    intro x hx
    obtain ⟨p, hp, he⟩ := List.mem_map.mp hx
    obtain ⟨q, hq, hpq⟩ := List.mem_map.mp hp
    rw [← he, ← hpq]
    rfl
  · unfold reportToJson specReportShape
    dsimp only
    rw [hks]
    have hc : (reportFlatKeys r).contains "columns" = false := by
      simp [columns_not_mem_flatKeys r]
    rw [hc]
    simp

/-- Counterexample to C1: a successful batch run whose published
document does not have the claimed shape — the top-level keys are the
flattened paths (no `columns` or `missing_values` parent keys), and the
`total_rows` value is not a scalar but an object nesting the number
under the row-index key "0". -/
theorem report_shape_counterexample_c1 :
    (runBatch exListing1).1 = .ok exReport1 ∧
    specReportShape (reportToJson exReport1) = false ∧
    jsonKeys (reportToJson exReport1) =
      ["total_rows", "total_columns", "columns.numeric",
       "columns.categorical", "missing_values.x",
       "missing_values.source_file", "duplicate_rows"] ∧
    (jsonLookup (reportToJson exReport1) "total_rows").map jsonKeys =
      some ["0"] ∧
    ((jsonLookup (reportToJson exReport1) "total_rows").bind
      (fun v => jsonLookup v "0")).map isNumJ = some true := by
  refine ⟨by rfl, by decide, by decide, by decide, by decide⟩

end DataPlatform
